import Mathlib

/-!
Shallow embedding of the Image Watermarking App (src/ui.py, src/text_menu_ui.py).

The program is a single-threaded Tkinter GUI.  We embed the session state and
the event handlers as pure Lean functions: each Tk callback becomes a function
on an explicit state record; the file pickers become explicit parameters (the
path the user picked, or the cancellation result); fallible Python code
(attribute access on attributes that may never have been assigned, int(),
font loading) returns `Except String _`, the string naming the Python
exception that would be raised.
-/

/-! ## text_menu_ui.py -/

-- FONTS (src/text_menu_ui.py lines 27-38)
def FONTS : List String :=
  ["Arial", "Verdana", "Times New Roman", "Courier New", "Georgia",
   "Comic Sans MS", "Trebuchet MS", "Impact", "Lucida Console", "Tahoma"]

-- COLORS_AND_CODE (src/text_menu_ui.py lines 40-46)
def COLORS_AND_CODE : List (String × String) :=
  [("Red", "#a32424"), ("Blue", "#2424a3"), ("Yellow", "#e8ff00"),
   ("Black", "#000000"), ("White", "#ffffff")]

-- Python dict .get: returns the mapped value, or None when the key is absent.
def colorsGet (name : String) : Option String :=
  (COLORS_AND_CODE.find? (fun kv => kv.1 == name)).map (fun kv => kv.2)

/-- The four input widgets of the TextMenu dialog, each read with .get()
as a string (src/text_menu_ui.py lines 124-127). -/
structure TextMenuFields where
  text_entry : String
  color_box : String
  spinbox : String
  font_box : String
deriving DecidableEq, Repr

/-- Observable outcome of one TextMenu.apply_changes invocation:
the list of callback invocations it performed (each with the argument
tuple (text, hex-or-none, fontSize, fontFamily)), whether the dialog is
still open afterwards, and whether the Missing-Values info box was shown. -/
structure ApplyOutcome where
  callbackCalls : List (String × Option String × String × String)
  dialogOpen : Bool
  infoShown : Bool
deriving DecidableEq, Repr

/-- TextMenu.apply_changes (src/text_menu_ui.py lines 118-137).
`hasCallback` models `if self.callback:`; the four `!= ''` tests are kept in
the source order (font size, color, text, font).  On success the callback is
invoked with `(text_value, COLORS_AND_CODE.get(color_value), font_size_value,
font_value)` and `close_window` destroys the dialog; otherwise a message box
is shown and the dialog stays open. -/
def apply_changes (hasCallback : Bool) (f : TextMenuFields) : ApplyOutcome :=
  if f.spinbox ≠ "" ∧ f.color_box ≠ "" ∧ f.text_entry ≠ "" ∧ f.font_box ≠ "" then
    { callbackCalls :=
        if hasCallback then
          [(f.text_entry, colorsGet f.color_box, f.spinbox, f.font_box)]
        else [],
      dialogOpen := false, infoShown := false }
  else
    { callbackCalls := [], dialogOpen := true, infoShown := true }

/-! ## Dialog-instance bookkeeping (C1)

`TextMenu.in_use` is a class attribute initialized to `False`
(src/text_menu_ui.py line 62).  Nothing in the codebase ever assigns it:
neither `TextMenu.__init__` nor `close_window` touches it.
`ImageWindowMaker.open_text_settings` (src/ui.py lines 168-173) tests it
before constructing a new TextMenu.  We model the class attribute together
with the number of TextMenu windows currently in existence. -/

structure DialogSys where
  in_use : Bool
  openDialogs : Nat
deriving DecidableEq, Repr

/-- State at application launch: `in_use = False` (class attribute), no
dialog windows exist. -/
def dialogInit : DialogSys := { in_use := false, openDialogs := 0 }

/-- TextMenu.__init__: constructs one more Toplevel window; it does NOT
modify `TextMenu.in_use` (src/text_menu_ui.py lines 64-116). -/
def textMenuNew (s : DialogSys) : DialogSys :=
  { s with openDialogs := s.openDialogs + 1 }

/-- ImageWindowMaker.open_text_settings (src/ui.py lines 168-173):
`if not TextMenu.in_use: self.text_window = TextMenu(...)`. -/
def open_text_settings (s : DialogSys) : DialogSys :=
  if s.in_use = false then textMenuNew s else s

/-- TextMenu.close_window (src/text_menu_ui.py lines 139-143): destroys the
window; it does NOT reset `TextMenu.in_use`. -/
def close_window (s : DialogSys) : DialogSys :=
  { s with openDialogs := s.openDialogs - 1 }

/-! ## ui.py session state -/

/-- What the canvas image item currently displays: the logo icon at launch,
or the selected image resized to the given dimensions after add_image. -/
inductive Preview where
  | logo : Preview
  | imageOf : String → Nat → Nat → Preview
deriving DecidableEq, Repr

/-- The canvas text item `text_watermarker`: its text, fill and font options.
Created by add_image with text "" and default fill/font (src/ui.py line 108),
reconfigured by values_received (src/ui.py lines 190-191). -/
structure CanvasTextItem where
  text : String
  fill : Option String
  font : Option (String × String × String)
deriving DecidableEq, Repr

/-- The session state of ImageWindowMaker.  Attributes that are only assigned
by some handlers are `Option`: `none` means the Python attribute does not
exist yet (reading it raises AttributeError). -/
structure AppState where
  in_principal : Bool
  search_file : Option String
  canvas_text : Option CanvasTextItem
  watermark_text : Option String
  text_color : Option String
  font_size : Option String
  font_value : Option String
  landingWidgets : Bool
  editButtons : Bool
  preview : Preview
deriving DecidableEq, Repr

/-- ImageWindowMaker.menu_start (src/ui.py lines 70-88): creates a fresh
canvas with the title text and the logo image, the Select-File button and
the credits label. -/
def menu_start (s : AppState) : AppState :=
  { s with landingWidgets := true, preview := Preview.logo }

/-- The state right after __init__ (src/ui.py lines 59-68):
`in_principal = True`, then menu_start; no other attribute exists yet. -/
def launchState : AppState :=
  menu_start
    { in_principal := true, search_file := none, canvas_text := none,
      watermark_text := none, text_color := none, font_size := none,
      font_value := none, landingWidgets := false, editButtons := false,
      preview := Preview.logo }

/-- ImageWindowMaker.add_image (src/ui.py lines 104-112): creates the
watermark text item at (300, 500) with text "", opens `self.search_file`
(AttributeError when it was never assigned), resizes to 600x600 and shows it
on the canvas. -/
def add_image (s : AppState) : Except String AppState :=
  match s.search_file with
  | none => Except.error "AttributeError: search_file"
  | some p =>
      Except.ok { s with
        canvas_text := some { text := "", fill := none, font := none },
        preview := Preview.imageOf p 600 600 }

/-- ImageWindowMaker.change_menu (src/ui.py lines 90-102).  `picked` is the
result of askopenfilename: the chosen path, or "" when the picker was
cancelled.  The result is assigned to `self.search_file` unconditionally;
only when `self.in_principal and self.search_file != ''` does the app switch
to the editing screen (delete the title, forget the credits label and the
Select-File button, create the editing buttons) and run add_image. -/
def change_menu (picked : String) (s0 : AppState) : Except String AppState :=
  let s := { s0 with search_file := some picked }
  if s.in_principal ∧ picked ≠ "" then
    add_image { s with in_principal := false, landingWidgets := false,
                       editButtons := true }
  else
    Except.ok s

/-- ImageWindowMaker.return_to_principal (src/ui.py lines 158-166): sets
`in_principal = True`, forgets the three editing buttons, and runs
menu_start again.  No other attribute is touched. -/
def return_to_principal (s : AppState) : AppState :=
  menu_start { s with in_principal := true, editButtons := false }

/-- ImageWindowMaker.values_received (src/ui.py lines 175-191): stores the
four received values and reconfigures the watermark canvas item with
text = r_text, fill = r_color_text, font = (r_font_value, r_font_size,
"bold").  itemconfig needs the text item to exist. -/
def values_received (r_text r_color_text r_font_size r_font_value : String)
    (s0 : AppState) : Except String AppState :=
  let s := { s0 with watermark_text := some r_text,
                     text_color := some r_color_text,
                     font_size := some r_font_size,
                     font_value := some r_font_value }
  match s.canvas_text with
  | none => Except.error "AttributeError: text_watermarker"
  | some _ =>
      Except.ok { s with
        canvas_text := some { text := r_text, fill := some r_color_text,
                              font := some (r_font_value, r_font_size, "bold") } }

/-- Python int() applied to a string, for the non-negative digit strings the
read-only spinbox produces ("30" .. "80"): the parsed number, or none when
the string is not a plain digit string (then int() raises ValueError). -/
def pyInt (s : String) : Option Nat :=
  if s.data ≠ [] ∧ s.data.all Char.isDigit then
    some (s.data.foldl (fun n c => n * 10 + (c.toNat - 48)) 0)
  else none

/-- The hard-coded font resource path (src/ui.py line 127). -/
def font_path : String := "path_to_font.ttf"

/-- The font object passed to draw.text: either the truetype font at the
hard-coded path with the requested pixel size, or the library default font
when loading raised IOError. -/
inductive RenderFont where
  | truetypeFont : String → Nat → RenderFont
  | defaultFont : RenderFont
deriving DecidableEq, Repr

/-- The image file written by save_image: destination path, the re-opened
source file, the resize dimensions, and the drawn text with its position,
anchor, fill color and font. -/
structure SavedImage where
  path : String
  sourceFile : String
  width : Nat
  height : Nat
  text : String
  posX : Nat
  posY : Nat
  anchor : String
  fill : String
  font : RenderFont
deriving DecidableEq, Repr

/-- Observable outcome of one save_image invocation: the session state
afterwards (save_image assigns no attribute, so it is returned unchanged),
the file written (none when the picker was cancelled), and whether the
"Image saved" info box was shown. -/
structure SaveOutcome where
  finalState : AppState
  written : Option SavedImage
  infoShown : Bool
deriving DecidableEq, Repr

/-- ImageWindowMaker.save_image (src/ui.py lines 114-136).
`file_to_save` is the asksaveasfile result: the chosen path, or none on
cancellation (then the body is skipped entirely).  `fontLoadOk` models
whether `ImageFont.truetype(font_path, ...)` succeeds; on IOError the
default font is substituted.  The body reads, in source order:
`self.search_file` (line 122), the text of the `self.text_watermarker`
canvas item (line 125), `int(self.font_size)` (line 129) and
`self.text_color` (line 133); reading a never-assigned attribute raises
AttributeError, which the `except IOError` clause does not catch, and a
non-numeric font size raises ValueError. -/
def save_image (file_to_save : Option String) (fontLoadOk : Bool)
    (s : AppState) : Except String SaveOutcome :=
  match file_to_save with
  | none => Except.ok { finalState := s, written := none, infoShown := false }
  | some abs_path =>
    match s.search_file with
    | none => Except.error "AttributeError: search_file"
    | some src =>
      match s.canvas_text with
      | none => Except.error "AttributeError: text_watermarker"
      | some item =>
        match s.font_size with
        | none => Except.error "AttributeError: font_size"
        | some fsStr =>
          match pyInt fsStr with
          | none => Except.error "ValueError: int"
          | some n =>
            let font := if fontLoadOk then RenderFont.truetypeFont font_path n
                        else RenderFont.defaultFont
            match s.text_color with
            | none => Except.error "AttributeError: text_color"
            | some col =>
              Except.ok { finalState := s,
                          written := some { path := abs_path, sourceFile := src,
                                            width := 600, height := 600,
                                            text := item.text, posX := 300,
                                            posY := 500, anchor := "ms",
                                            fill := col, font := font },
                          infoShown := true }

/-! ## Theorems -/

/-- C1 (code slip in the exclusion guard): `TextMenu.in_use` starts False and
no code ever sets it, so after opening one dialog a window is open while
`in_use` is still False, and invoking open_text_settings again is not a
no-op: it constructs a second TextMenu window. -/
theorem c1_guard_ineffective :
    (open_text_settings dialogInit).openDialogs = 1
    ∧ (open_text_settings dialogInit).in_use = false
    ∧ (open_text_settings (open_text_settings dialogInit)).openDialogs = 2 := by
  decide

/-- C3: apply_changes with a registered callback: when any of the four fields
is the empty string, no callback call happens, the info box is shown and the
dialog stays open; when all four are non-empty, the callback is invoked
exactly once with (text, hex code of the color name, font size, font family)
and the dialog closes; in every case the callback fires at most once. -/
theorem c3_validation (f : TextMenuFields) :
    ((f.spinbox = "" ∨ f.color_box = "" ∨ f.text_entry = "" ∨ f.font_box = "") →
      (apply_changes true f).callbackCalls = []
      ∧ (apply_changes true f).dialogOpen = true
      ∧ (apply_changes true f).infoShown = true)
    ∧ ((f.spinbox ≠ "" ∧ f.color_box ≠ "" ∧ f.text_entry ≠ "" ∧ f.font_box ≠ "") →
      (apply_changes true f).callbackCalls
        = [(f.text_entry, colorsGet f.color_box, f.spinbox, f.font_box)]
      ∧ (apply_changes true f).dialogOpen = false)
    ∧ (apply_changes true f).callbackCalls.length ≤ 1 := by
  unfold apply_changes
  by_cases h : f.spinbox ≠ "" ∧ f.color_box ≠ "" ∧ f.text_entry ≠ "" ∧ f.font_box ≠ "" <;>
    simp [h]

/-- Witness for c3_validation: one empty-field instance (empty text) and one
all-filled instance, evaluated concretely. -/
theorem c3_validation_witness :
    ((apply_changes true { text_entry := "", color_box := "Red", spinbox := "30", font_box := "Arial" }).callbackCalls = []
      ∧ (apply_changes true { text_entry := "", color_box := "Red", spinbox := "30", font_box := "Arial" }).dialogOpen = true
      ∧ (apply_changes true { text_entry := "", color_box := "Red", spinbox := "30", font_box := "Arial" }).infoShown = true)
    ∧ ((apply_changes true { text_entry := "hi", color_box := "Red", spinbox := "30", font_box := "Arial" }).callbackCalls
        = [("hi", colorsGet "Red", "30", "Arial")]
      ∧ (apply_changes true { text_entry := "hi", color_box := "Red", spinbox := "30", font_box := "Arial" }).dialogOpen = false) :=
  ⟨(c3_validation _).1 (by decide), (c3_validation _).2.1 (by decide)⟩

/-- C4: for every all-fields-non-empty input, the callback receives the
literal text entered and the hex code the fixed palette maps the selected
color name to; the palette maps "Red" to "#a32424". -/
theorem c4_literal_values (f : TextMenuFields)
    (h : f.spinbox ≠ "" ∧ f.color_box ≠ "" ∧ f.text_entry ≠ "" ∧ f.font_box ≠ "") :
    (apply_changes true f).callbackCalls
      = [(f.text_entry, colorsGet f.color_box, f.spinbox, f.font_box)]
    ∧ colorsGet "Red" = some "#a32424" := by
  refine ⟨?_, by decide⟩
  unfold apply_changes
  simp [h]

/-- Witness for c4_literal_values: concrete confirmation with the color
"Red" carries the hex string "#a32424" to the callback. -/
theorem c4_literal_values_witness :
    (apply_changes true { text_entry := "hello", color_box := "Red", spinbox := "42", font_box := "Arial" }).callbackCalls
      = [("hello", colorsGet "Red", "42", "Arial")]
    ∧ colorsGet "Red" = some "#a32424" :=
  c4_literal_values _ (by decide)

/-- C10: validation only compares fields to the empty string, so a text entry
made solely of whitespace characters (other fields non-empty) counts as
filled: the callback is invoked with that whitespace text, the dialog closes
and no validation message appears. -/
theorem c10_whitespace_accepted (f : TextMenuFields)
    (htext : f.text_entry ≠ "" ∧ ∀ c ∈ f.text_entry.data, c.isWhitespace = true)
    (hrest : f.spinbox ≠ "" ∧ f.color_box ≠ "" ∧ f.font_box ≠ "") :
    (apply_changes true f).callbackCalls
      = [(f.text_entry, colorsGet f.color_box, f.spinbox, f.font_box)]
    ∧ (apply_changes true f).dialogOpen = false
    ∧ (apply_changes true f).infoShown = false := by
  unfold apply_changes
  simp [htext.1, hrest.1, hrest.2.1, hrest.2.2]

/-- Witness for c10_whitespace_accepted: a single-space text entry is
accepted and passed through verbatim. -/
theorem c10_whitespace_accepted_witness :
    (apply_changes true { text_entry := " ", color_box := "Red", spinbox := "30", font_box := "Arial" }).callbackCalls
      = [(" ", colorsGet "Red", "30", "Arial")]
    ∧ (apply_changes true { text_entry := " ", color_box := "Red", spinbox := "30", font_box := "Arial" }).dialogOpen = false
    ∧ (apply_changes true { text_entry := " ", color_box := "Red", spinbox := "30", font_box := "Arial" }).infoShown = false :=
  c10_whitespace_accepted _ ⟨by decide, by decide⟩ (by decide)

/-- C2 (code slip): loading an image and saving without ever confirming the
text dialog raises AttributeError instead of succeeding — save_image reads
`int(self.font_size)`, but only values_received ever assigns `font_size`
(and `text_color`), and the `except IOError` clause does not catch
AttributeError, so no file is written. -/
theorem c2_save_before_dialog_raises :
    (change_menu "sample.png" launchState).bind (save_image (some "out.png") false)
      = Except.error "AttributeError: font_size" := by
  rfl

/-- C5 counterexample: after selecting "sample.png" and returning to the main
screen, the stored image path is still some "sample.png", whereas at initial
launch the attribute does not exist — the session state is not restored to
its launch value. -/
theorem c5_counterexample :
    (change_menu "sample.png" launchState).map
        (fun s => (return_to_principal s).search_file)
      = Except.ok (some "sample.png")
    ∧ launchState.search_file = none
    ∧ (some "sample.png" : Option String) ≠ none := by
  refine ⟨by rfl, by rfl, by decide⟩

/-- C5 amended: selectFile followed by returnToMain restores the main-screen
flag, the landing widgets, the editing buttons and the preview to their
launch values, and the watermark parameters keep their launch values in this
trace, but the stored image path keeps the selected path and the watermark
canvas text item remains created — the state is not identical to launch. -/
theorem c5_partial_reset (p : String) (hp : p ≠ "") :
    (change_menu p launchState).map (fun s =>
        ((return_to_principal s).in_principal,
         (return_to_principal s).landingWidgets,
         (return_to_principal s).editButtons,
         (return_to_principal s).preview,
         (return_to_principal s).watermark_text,
         (return_to_principal s).text_color,
         (return_to_principal s).font_size,
         (return_to_principal s).font_value,
         (return_to_principal s).search_file,
         (return_to_principal s).canvas_text))
      = Except.ok (launchState.in_principal, launchState.landingWidgets,
         launchState.editButtons, launchState.preview,
         launchState.watermark_text, launchState.text_color,
         launchState.font_size, launchState.font_value,
         some p, some { text := "", fill := none, font := none }) := by
  simp [change_menu, add_image, return_to_principal, menu_start, launchState,
        Except.map, hp]

/-- Witness for c5_partial_reset at the selected path "sample.png". -/
theorem c5_partial_reset_witness :
    (change_menu "sample.png" launchState).map (fun s =>
        ((return_to_principal s).in_principal,
         (return_to_principal s).landingWidgets,
         (return_to_principal s).editButtons,
         (return_to_principal s).preview,
         (return_to_principal s).watermark_text,
         (return_to_principal s).text_color,
         (return_to_principal s).font_size,
         (return_to_principal s).font_value,
         (return_to_principal s).search_file,
         (return_to_principal s).canvas_text))
      = Except.ok (launchState.in_principal, launchState.landingWidgets,
         launchState.editButtons, launchState.preview,
         launchState.watermark_text, launchState.text_color,
         launchState.font_size, launchState.font_value,
         some "sample.png", some { text := "", fill := none, font := none }) :=
  c5_partial_reset "sample.png" (by decide)

/-- C6: when a watermark spec has been applied (search_file, the canvas text
item, font_size and text_color all exist) and loading the hard-coded font
path raises IOError, save_image substitutes the library default font and
completes the save with the info box shown — no error surfaces. -/
theorem c6_font_fallback (s : AppState) (src fsStr col abs_path : String)
    (item : CanvasTextItem) (n : Nat)
    (h1 : s.search_file = some src) (h2 : s.canvas_text = some item)
    (h3 : s.font_size = some fsStr) (h4 : pyInt fsStr = some n)
    (h5 : s.text_color = some col) :
    save_image (some abs_path) false s
      = Except.ok { finalState := s,
                    written := some { path := abs_path, sourceFile := src,
                                      width := 600, height := 600,
                                      text := item.text, posX := 300, posY := 500,
                                      anchor := "ms", fill := col,
                                      font := RenderFont.defaultFont },
                    infoShown := true } := by
  simp [save_image, h1, h2, h3, h4, h5]

/-- Witness for c6_font_fallback on a concrete applied-spec state. -/
theorem c6_font_fallback_witness :
    save_image (some "out.png") false
      { in_principal := false, search_file := some "sample.png",
        canvas_text := some { text := "hi", fill := some "#a32424",
                              font := some ("Arial", "42", "bold") },
        watermark_text := some "hi", text_color := some "#a32424",
        font_size := some "42", font_value := some "Arial",
        landingWidgets := false, editButtons := true,
        preview := Preview.imageOf "sample.png" 600 600 }
      = Except.ok { finalState :=
                      { in_principal := false, search_file := some "sample.png",
                        canvas_text := some { text := "hi", fill := some "#a32424",
                                              font := some ("Arial", "42", "bold") },
                        watermark_text := some "hi", text_color := some "#a32424",
                        font_size := some "42", font_value := some "Arial",
                        landingWidgets := false, editButtons := true,
                        preview := Preview.imageOf "sample.png" 600 600 },
                    written := some { path := "out.png", sourceFile := "sample.png",
                                      width := 600, height := 600,
                                      text := "hi", posX := 300, posY := 500,
                                      anchor := "ms", fill := "#a32424",
                                      font := RenderFont.defaultFont },
                    infoShown := true } :=
  c6_font_fallback _ "sample.png" "42" "#a32424" "out.png"
    { text := "hi", fill := some "#a32424", font := some ("Arial", "42", "bold") }
    42 rfl rfl rfl (by decide) rfl

/-- C7 counterexample: with "sample.png" selected and the app returned to the
main screen, cancelling the open-file picker is not a no-op — the stored
image path is overwritten from some "sample.png" to some "". -/
theorem c7_counterexample :
    (change_menu "sample.png" launchState).map (fun s =>
        ((return_to_principal s).search_file,
         (change_menu "" (return_to_principal s)).map (fun t => t.search_file)))
      = Except.ok (some "sample.png", Except.ok (some ""))
    ∧ (some "sample.png" : Option String) ≠ some "" := by
  refine ⟨by rfl, by decide⟩

/-- C7 amended: a cancelled save picker is a complete no-op (state returned
unchanged, nothing written, no message); a cancelled open picker shows no
message and triggers no screen transition, and leaves every state component
unchanged except the stored image path, which it overwrites with the empty
string. -/
theorem c7_cancel_effects (s : AppState) (fontLoadOk : Bool) :
    save_image none fontLoadOk s
      = Except.ok { finalState := s, written := none, infoShown := false }
    ∧ change_menu "" s = Except.ok { s with search_file := some "" } := by
  constructor
  · rfl
  · simp [change_menu]

/-- C8: for every confirmed save in a state where a watermark spec is stored
and the font resource loads, the written file is the original image re-opened
and resized to 600x600, with the current overlay text drawn at (300, 500)
anchored "ms", filled with the stored color, in the truetype font at the
hard-coded path with the stored font size, at the user-chosen path. -/
theorem c8_saved_output (s : AppState) (src fsStr col abs_path : String)
    (item : CanvasTextItem) (n : Nat)
    (h1 : s.search_file = some src) (h2 : s.canvas_text = some item)
    (h3 : s.font_size = some fsStr) (h4 : pyInt fsStr = some n)
    (h5 : s.text_color = some col) :
    save_image (some abs_path) true s
      = Except.ok { finalState := s,
                    written := some { path := abs_path, sourceFile := src,
                                      width := 600, height := 600,
                                      text := item.text, posX := 300, posY := 500,
                                      anchor := "ms", fill := col,
                                      font := RenderFont.truetypeFont font_path n },
                    infoShown := true } := by
  simp [save_image, h1, h2, h3, h4, h5]

/-- Witness for c8_saved_output on a concrete applied-spec state. -/
theorem c8_saved_output_witness :
    save_image (some "out.png") true
      { in_principal := false, search_file := some "sample.png",
        canvas_text := some { text := "hi", fill := some "#a32424",
                              font := some ("Arial", "42", "bold") },
        watermark_text := some "hi", text_color := some "#a32424",
        font_size := some "42", font_value := some "Arial",
        landingWidgets := false, editButtons := true,
        preview := Preview.imageOf "sample.png" 600 600 }
      = Except.ok { finalState :=
                      { in_principal := false, search_file := some "sample.png",
                        canvas_text := some { text := "hi", fill := some "#a32424",
                                              font := some ("Arial", "42", "bold") },
                        watermark_text := some "hi", text_color := some "#a32424",
                        font_size := some "42", font_value := some "Arial",
                        landingWidgets := false, editButtons := true,
                        preview := Preview.imageOf "sample.png" 600 600 },
                    written := some { path := "out.png", sourceFile := "sample.png",
                                      width := 600, height := 600,
                                      text := "hi", posX := 300, posY := 500,
                                      anchor := "ms", fill := "#a32424",
                                      font := RenderFont.truetypeFont font_path 42 },
                    infoShown := true } :=
  c8_saved_output _ "sample.png" "42" "#a32424" "out.png"
    { text := "hi", fill := some "#a32424", font := some ("Arial", "42", "bold") }
    42 rfl rfl rfl (by decide) rfl

/-- C9: the written image does not depend on the selected font family — two
runs that apply watermark specs identical except for the fontFamily value
and then save produce identical written files, because save_image renders
with the single hard-coded font path and never reads font_value. -/
theorem c9_font_family_independent (s : AppState)
    (r_text r_color r_size f1 f2 : String) (picked : Option String)
    (fontLoadOk : Bool) :
    ((values_received r_text r_color r_size f1 s).bind
        (save_image picked fontLoadOk)).map (fun o => o.written)
      = ((values_received r_text r_color r_size f2 s).bind
        (save_image picked fontLoadOk)).map (fun o => o.written) := by
  cases hct : s.canvas_text with
  | none => simp [values_received, hct]
  | some item =>
    cases picked with
    | none =>
        simp [values_received, save_image, hct, Except.bind, Except.map]
    | some p =>
      cases hsf : s.search_file with
      | none =>
          simp [values_received, save_image, hct, hsf, Except.bind, Except.map]
      | some src =>
        cases hn : pyInt r_size with
        | none =>
            simp [values_received, save_image, hct, hsf, hn, Except.bind,
                  Except.map]
        | some n =>
            simp [values_received, save_image, hct, hsf, hn, Except.bind,
                  Except.map]
